import Mathlib

/-!
Verification development for the smart-room dashboard client
(`src/unnamed/part_001`, the room-control view, and
`src/static/dashboard.js`, the log/storage view).

The JavaScript sources are shallowly embedded: the mutable module-level
globals become explicit state records, DOM mutations become updates of a
record of the text/class/icon slots the code writes, and the browser-side
callbacks (`onmessage`, `onerror`, fetch `.then`/`.catch` continuations)
become pure transition functions on those records.
-/

namespace Dashboard

/-- Model of a decoded JSON value (result of `JSON.parse`). The log/storage
view treats event payloads generically, so it operates on this type. -/
inductive Json where
  | null : Json
  | bool (b : Bool) : Json
  | num (n : Int) : Json
  | str (s : String) : Json
  | arr (elems : List Json) : Json
  | obj (fields : List (String × Json)) : Json

/-- JavaScript property read `v[k]`: defined field lookup on objects,
`undefined` (here `none`) on everything else. -/
def Json.getField : Json → String → Option Json
  | .obj fields, k => (fields.find? (fun kv => kv.1 = k)).map (fun kv => kv.2)
  | _, _ => none

/-- JavaScript property read `v[k]` on a receiver that may be `null`:
reading any property of `null` throws a TypeError (`JSON.parse` can return
bare `null`, so the decoded frame itself may be that receiver); any other
non-object receiver yields `undefined`; objects yield the field or
`undefined`. -/
def Json.getFieldOrThrow : Json → String → Except Unit (Option Json)
  | .null, _ => .error ()
  | .obj fields, k =>
      .ok ((fields.find? (fun kv => kv.1 = k)).map (fun kv => kv.2))
  | _, _ => .ok none

/-- JavaScript truthiness of a value. -/
def Json.truthy : Json → Bool
  | .null => false
  | .bool b => b
  | .num n => n != 0
  | .str s => s != ""
  | .arr _ => true
  | .obj _ => true

/-- JavaScript string comparison `v === "lit"` for a property that may be
absent: true exactly when the value is present, is a string, and equals the
literal. -/
def jsIsStr (v : Option Json) (lit : String) : Bool :=
  match v with
  | some (.str s) => s = lit
  | _ => false

mutual

/-- JavaScript `ToString` as applied by the `textContent` setter:
strings stay, numbers and booleans print, arrays join their elements with
commas (`null` elements print empty), plain objects print as
`[object Object]`. -/
def Json.jsToString : Json → String
  | .null => "null"
  | .bool b => cond b "true" "false"
  | .num n => toString n
  | .str s => s
  | .arr elems => String.intercalate "," (Json.jsToStringList elems)
  | .obj _ => "[object Object]"

/-- Per-element rendering of `Array.prototype.join`. -/
def Json.jsToStringList : List Json → List String
  | [] => []
  | .null :: rest => "" :: Json.jsToStringList rest
  | v :: rest => v.jsToString :: Json.jsToStringList rest

end

/-- `a || b` for an optional JSON value rendered to a string: the JS code
writes `x || dflt` into `textContent`, so an absent (`undefined`) or falsy
value falls back to the default string. From `dashboard.js` lines 89 and 93. -/
def jsOrDisplay (v : Option Json) (dflt : String) : String :=
  match v with
  | some j => if j.truthy then j.jsToString else dflt
  | none => dflt

/-- `a || b` on an optional string where the empty string is falsy
(JS `data.timestamp || new Date().toLocaleTimeString()`). -/
def jsOrString (v : Option String) (dflt : String) : String :=
  match v with
  | some s => if s = "" then dflt else s
  | none => dflt

/-- Template-literal interpolation of a possibly-absent string:
JavaScript prints `undefined` for a missing value. -/
def templateStr (v : Option String) : String :=
  v.getD "undefined"

/-- The room-control view's `systemState` global (`part_001` lines 9-19),
with each field at the JavaScript type the code keeps it at. -/
structure SystemState where
  door_state : Bool
  light_state : Bool
  user_present : Bool
  luminosity : Int
  last_update : Option String
  detected_user : Option String
  users_in_room : List String
  arduino_connected : Bool
  manual_override : Bool
deriving DecidableEq

/-- The initializer of `systemState` (`part_001` lines 9-19). -/
def initialSystemState : SystemState :=
  { door_state := false
    light_state := false
    user_present := false
    luminosity := 0
    last_update := none
    detected_user := none
    users_in_room := []
    arduino_connected := false
    manual_override := false }

/-- A partial state object as pushed by the server (`system_state` payload):
each key may be present (`some`) or absent (`none`). Nullable fields carry
an inner `Option`. -/
structure StatePatch where
  door_state : Option Bool := none
  light_state : Option Bool := none
  user_present : Option Bool := none
  luminosity : Option Int := none
  last_update : Option (Option String) := none
  detected_user : Option (Option String) := none
  users_in_room : Option (List String) := none
  arduino_connected : Option Bool := none
  manual_override : Option Bool := none
deriving DecidableEq

/-- `Object.assign(systemState, newState)` (`part_001` line 27): every key
present in the patch overwrites the corresponding field, absent keys leave
the field untouched. -/
def mergePatch (s : SystemState) (p : StatePatch) : SystemState :=
  { door_state := p.door_state.getD s.door_state
    light_state := p.light_state.getD s.light_state
    user_present := p.user_present.getD s.user_present
    luminosity := p.luminosity.getD s.luminosity
    last_update := p.last_update.getD s.last_update
    detected_user := p.detected_user.getD s.detected_user
    users_in_room := p.users_in_room.getD s.users_in_room
    arduino_connected := p.arduino_connected.getD s.arduino_connected
    manual_override := p.manual_override.getD s.manual_override }

/-- The value carried by the last patch in the list that sets the field
read off by `g`, if any patch sets it. -/
def lastSet (g : StatePatch → Option α) : List StatePatch → Option α
  | [] => none
  | p :: ps => (lastSet g ps).orElse (fun _ => g p)

/-- The DOM slots written by the room-control view's render functions
(`part_001` lines 45-165): for each status tile its label text, CSS class
and icon glyph, the override button label, the users list (icon glyph and
display name per user), and the arduino connection line. -/
structure Dom where
  lightText : String
  lightClass : String
  lightIcon : String
  doorText : String
  doorClass : String
  doorIcon : String
  presenceText : String
  presenceClass : String
  presenceIcon : String
  luminosityValueText : String
  luminosityIcon : String
  overrideText : String
  overrideClass : String
  overrideIcon : String
  overrideButtonText : String
  usersList : List (String × String)
  arduinoText : String
  arduinoClass : String
deriving DecidableEq

/-- `updateLightStatus` (`part_001` lines 45-58). -/
def updateLightStatus (s : SystemState) (d : Dom) : Dom :=
  if s.light_state then
    { d with lightText := "ON", lightClass := "status-value status-on",
             lightIcon := "💡" }
  else
    { d with lightText := "OFF", lightClass := "status-value status-off",
             lightIcon := "🔅" }

/-- `updateDoorStatus` (`part_001` lines 61-74). -/
def updateDoorStatus (s : SystemState) (d : Dom) : Dom :=
  if s.door_state then
    { d with doorText := "OPEN", doorClass := "status-value status-active",
             doorIcon := "🚪↔️" }
  else
    { d with doorText := "CLOSED", doorClass := "status-value status-inactive",
             doorIcon := "🚪" }

/-- `updatePresenceStatus` (`part_001` lines 77-90). -/
def updatePresenceStatus (s : SystemState) (d : Dom) : Dom :=
  if s.user_present then
    { d with presenceText := "DETECTED",
             presenceClass := "status-value status-active",
             presenceIcon := "👤✓" }
  else
    { d with presenceText := "NONE",
             presenceClass := "status-value status-inactive",
             presenceIcon := "👤" }

/-- `updateLuminosityStatus` (`part_001` lines 93-107). -/
def updateLuminosityStatus (s : SystemState) (d : Dom) : Dom :=
  let d := { d with luminosityValueText := toString s.luminosity }
  if s.luminosity > 700 then
    { d with luminosityIcon := "☀️" }
  else if s.luminosity > 300 then
    { d with luminosityIcon := "🌤️" }
  else
    { d with luminosityIcon := "🌑" }

/-- `updateOverrideStatus` (`part_001` lines 110-126). -/
def updateOverrideStatus (s : SystemState) (d : Dom) : Dom :=
  if s.manual_override then
    { d with overrideText := "ON", overrideClass := "status-value status-on",
             overrideIcon := "🔓", overrideButtonText := "Disable Override" }
  else
    { d with overrideText := "OFF", overrideClass := "status-value status-off",
             overrideIcon := "🔒", overrideButtonText := "Enable Override" }

/-- The `users` global: the mapping fetched from `/api/users`, as an
association list from user id to the `name` field. -/
abbrev UserDirectory : Type := List (String × String)

/-- `users[userId] ? users[userId].name : ` followed by the template
`User ${userId}` (`part_001` line 135). -/
def displayNameOf (users : UserDirectory) (userId : String) : String :=
  match (users.find? (fun kv => kv.1 = userId)) with
  | some kv => kv.2
  | none => "User " ++ userId

/-- `updateUsersInRoom` (`part_001` lines 129-152): clears the list, then
either one (icon, name) item per user id or the no-users placeholder. -/
def updateUsersInRoom (users : UserDirectory) (s : SystemState) (d : Dom) : Dom :=
  if s.users_in_room.length > 0 then
    { d with usersList :=
        s.users_in_room.map (fun userId => ("👤", displayNameOf users userId)) }
  else
    { d with usersList := [("", "No users detected")] }

/-- `updateArduinoStatus` (`part_001` lines 155-165). -/
def updateArduinoStatus (s : SystemState) (d : Dom) : Dom :=
  if s.arduino_connected then
    { d with arduinoText := "Connected", arduinoClass := "stat-value status-on" }
  else
    { d with arduinoText := "Disconnected", arduinoClass := "stat-value status-off" }

/-- The sequence of render calls made by `updateSystemState`
(`part_001` lines 30-36), in source order. -/
def renderAll (users : UserDirectory) (s : SystemState) (d : Dom) : Dom :=
  updateOverrideStatus s
    (updateArduinoStatus s
      (updateUsersInRoom users s
        (updateLuminosityStatus s
          (updatePresenceStatus s
            (updateDoorStatus s
              (updateLightStatus s d))))))

/-- The trim loop run after each append
(`part_001` lines 216-218, `dashboard.js` lines 120-122):
`while (consoleElement.children.length > cap) removeChild(firstChild)`. -/
def evictOldest (cap : Nat) (log : List α) : List α :=
  if log.length > cap then evictOldest cap log.tail else log
termination_by log.length
decreasing_by
  rename_i h
  cases log with
  | nil => simp at h
  | cons a as => simp

/-- The argument object passed to the room view's `addLogEntry`: every field
the function reads, each possibly absent. -/
structure RoomLogData where
  type : Option String := none
  timestamp : Option String := none
  message : Option String := none
  user : Option String := none
  details : Option Json := none

/-- One rendered entry of the room view's activity log: the text content of
the spans `addLogEntry` creates (`part_001` lines 168-206). -/
structure RoomLogEntry where
  timestamp : String
  typeClass : String
  typeText : String
  message : String
  user : Option String
  details : Option Json

/-- The span contents built by the room view's `addLogEntry`
(`part_001` lines 172-206), with `now` the current
`new Date().toLocaleTimeString()`:
timestamp falls back to the clock when the field is absent or empty,
the type tag falls back to `info`/`INFO`, message to the empty string; the
user span and the details block are present only when their fields are. -/
def renderRoomLogEntry (now : String) (data : RoomLogData) : RoomLogEntry :=
  { timestamp := jsOrString data.timestamp now
    typeClass := "log-type log-type-" ++ (jsOrString data.type "info")
    typeText := jsOrString (data.type.map (fun t => t.toUpper)) "INFO"
    message := jsOrString data.message ""
    user := data.user
    details := data.details }

/-- The room view's `addLogEntry` on the log as a whole
(`part_001` lines 168-219): build the entry, append it, then evict from the
front while more than 100 entries remain. -/
def addLogEntry (now : String) (log : List RoomLogEntry) (data : RoomLogData) :
    List RoomLogEntry :=
  evictOldest 100 (log ++ [renderRoomLogEntry now data])

/-- The connection-status indicator: `connecting` is the initial markup
state, `onopen` sets connected, `onerror` sets disconnected. -/
inductive ConnectionStatus where
  | connecting
  | connected
  | disconnected
deriving DecidableEq

/-- The room-control view's module-level mutable state: `systemState`,
`users`, the log console, the connection indicator, the last-update display
and the `console.error` diagnostics channel. -/
structure RoomClient where
  systemState : SystemState
  users : UserDirectory
  dom : Dom
  log : List RoomLogEntry
  connStatus : ConnectionStatus
  lastUpdateText : String
  diagnostics : List String

/-- `updateSystemState(newState)` (`part_001` lines 25-42): merge the patch
into `systemState`, re-run every render function, and show `Just now` when
the patch carries a truthy `last_update`. -/
def updateSystemState (st : RoomClient) (p : StatePatch) : RoomClient :=
  let merged := mergePatch st.systemState p
  { st with
    systemState := merged
    dom := renderAll st.users merged st.dom
    lastUpdateText :=
      match p.last_update with
      | some (some t) => if t = "" then st.lastUpdateText else "Just now"
      | _ => st.lastUpdateText }

/-- A decoded event envelope as consumed by the room view's `onmessage`
handler: the `type` discriminator plus every payload field the handler
reads, each possibly absent. -/
structure EventMsg where
  type : Option String := none
  timestamp : Option String := none
  system_state : Option StatePatch := none
  data : Option Json := none
  user_name : Option String := none
  enabled : Option Bool := none

/-- The dispatch on `data.type` inside the room view's `onmessage`
(`part_001` lines 242-276): `initial_state`/`update` merge the
`system_state` payload and `update` additionally logs one entry; `welcome`
logs one entry; `override` logs one entry and sets `manual_override`;
every other type is ignored. -/
def processEvent (now : String) (st : RoomClient) (e : EventMsg) : RoomClient :=
  if e.type = some "initial_state" ∨ e.type = some "update" then
    let st1 :=
      match e.system_state with
      | some p => updateSystemState st p
      | none => st
    if e.type = some "update" then
      let entry : RoomLogData :=
        { type := some "update"
          timestamp := e.timestamp
          message := some "System state updated"
          details := e.data }
      { st1 with log := addLogEntry now st1.log entry }
    else st1
  else if e.type = some "welcome" then
    let name := templateStr e.user_name
    let entry : RoomLogData :=
      { type := some "welcome"
        timestamp := e.timestamp
        message := some ("Welcome " ++ name ++ "!")
        user := e.user_name }
    { st with log := addLogEntry now st.log entry }
  else if e.type = some "override" then
    let enabled := (e.enabled.getD false)
    let entry : RoomLogData :=
      { type := some "control"
        timestamp := e.timestamp
        message := some ("Manual override " ++
          (if enabled then "enabled" else "disabled"))
        details := some (Json.obj [("enabled", Json.bool enabled)]) }
    let st1 := { st with log := addLogEntry now st.log entry }
    let merged := { st1.systemState with manual_override := enabled }
    { st1 with systemState := merged,
               dom := updateOverrideStatus merged st1.dom }
  else st

/-- The room view's `onmessage` handler (`part_001` lines 236-280): a frame
that fails `JSON.parse` (`none`) is caught, producing only a `console.error`
record; a decoded frame is dispatched by type. -/
def handleMessage (now : String) (st : RoomClient) (frame : Option EventMsg) :
    RoomClient :=
  match frame with
  | none => { st with diagnostics :=
      st.diagnostics ++ ["Error parsing event data:"] }
  | some e => processEvent now st e

/-- A decoded control-endpoint response body: `status`, `message` and
`state`, each possibly absent. -/
structure ControlResponse where
  status : Option String := none
  message : Option String := none
  state : Option StatePatch := none

/-- Result of a control fetch round trip: a decoded response body, or a
transport/parse failure that lands in the `.catch` handler with the error's
`message`. -/
inductive FetchOutcome where
  | ok (response : ControlResponse)
  | networkError (message : String)

/-- The body `controlLight` POSTs to `/api/light/control`
(`part_001` lines 315-318). -/
structure LightControlBody where
  command : String
  override : Bool
deriving DecidableEq

/-- The synchronous part of `controlLight(command)` (`part_001` lines
309-319): issue the POST carrying the command and the current
`manual_override`; nothing else happens until a response arrives. -/
def controlLightClick (command : String) (st : RoomClient) :
    LightControlBody × RoomClient :=
  ({ command := command, override := st.systemState.manual_override }, st)

/-- The `.then`/`.catch` continuation of `controlLight`
(`part_001` lines 320-344): on `status === 'success'` log one control entry
and merge `data.state` when present; otherwise log one error entry carrying
the server message; on transport error log one error entry carrying the
error message. -/
def controlLightResponse (now : String) (command : String) (st : RoomClient)
    (outcome : FetchOutcome) : RoomClient :=
  match outcome with
  | .ok data =>
    if data.status = some "success" then
      let entry : RoomLogData :=
        { type := some "control"
          message := some ("Light turned " ++ command ++ " successfully") }
      let st1 := { st with log := addLogEntry now st.log entry }
      match data.state with
      | some p => updateSystemState st1 p
      | none => st1
    else
      let entry : RoomLogData :=
        { type := some "error"
          message := some ("Failed to turn " ++ command ++ " light: " ++
            templateStr data.message) }
      { st with log := addLogEntry now st.log entry }
  | .networkError m =>
      let entry : RoomLogData :=
        { type := some "error"
          message := some ("Error controlling light: " ++ m) }
      { st with log := addLogEntry now st.log entry }

/-- The body `toggleOverride` POSTs to `/api/override`
(`part_001` line 356). -/
structure OverrideRequestBody where
  enable : Bool
deriving DecidableEq

/-- The synchronous part of `toggleOverride` (`part_001` lines 348-357):
compute `newState = !systemState.manual_override`, POST `{enable: newState}`;
local state is untouched until the response arrives. -/
def toggleOverrideClick (st : RoomClient) : OverrideRequestBody × RoomClient :=
  ({ enable := !st.systemState.manual_override }, st)

/-- The `.then`/`.catch` continuation of `toggleOverride`
(`part_001` lines 358-382), with `newState` the value captured at click
time: same success/failure handling as the light control. -/
def toggleOverrideResponse (now : String) (newState : Bool) (st : RoomClient)
    (outcome : FetchOutcome) : RoomClient :=
  match outcome with
  | .ok data =>
    if data.status = some "success" then
      let entry : RoomLogData :=
        { type := some "control"
          message := some ("Manual override " ++
            (if newState then "enabled" else "disabled")) }
      let st1 := { st with log := addLogEntry now st.log entry }
      match data.state with
      | some p => updateSystemState st1 p
      | none => st1
    else
      let entry : RoomLogData :=
        { type := some "error"
          message := some ("Failed to toggle override: " ++
            templateStr data.message) }
      { st with log := addLogEntry now st.log entry }
  | .networkError m =>
      let entry : RoomLogData :=
        { type := some "error"
          message := some ("Error toggling override: " ++ m) }
      { st with log := addLogEntry now st.log entry }

/-- The fixed reconnect delay passed to `setTimeout`
(`part_001` line 293, `dashboard.js` line 67), in milliseconds. -/
def reconnectDelayMs : Nat := 5000

/-- The stream connector's lifecycle state: the connection indicator, the
absolute fire times of pending `setTimeout(connectToEventSource, 5000)`
callbacks, and how many times `connectToEventSource` has run. -/
structure ConnectorState where
  status : ConnectionStatus
  pendingReconnects : List Nat
  generation : Nat
deriving DecidableEq

/-- The `onopen` handler (`part_001` lines 229-234, `dashboard.js`
lines 35-40). -/
def onOpen (c : ConnectorState) : ConnectorState :=
  { c with status := .connected }

/-- The `onerror` handler (`part_001` lines 282-294, `dashboard.js`
lines 60-68) at wall-clock time `now`: mark disconnected and schedule one
reconnect exactly `reconnectDelayMs` later. -/
def onError (c : ConnectorState) (now : Nat) : ConnectorState :=
  { c with status := .disconnected,
           pendingReconnects := c.pendingReconnects ++ [now + reconnectDelayMs] }

/-- A scheduled reconnect callback running: `connectToEventSource` closes
any existing stream and opens a new one, consuming the timer. -/
def fireReconnect (c : ConnectorState) : ConnectorState :=
  { c with pendingReconnects := c.pendingReconnects.tail,
           generation := c.generation + 1 }

/-- `setTimeout` semantics: a reconnect callback may run at time `t` only
if some pending timer's scheduled fire time has been reached. -/
def canFireAt (c : ConnectorState) (t : Nat) : Prop :=
  ∃ d ∈ c.pendingReconnects, d ≤ t

/-- One rendered entry of the log/storage view's console: the `message`
layout from `addLogEntry` (`dashboard.js` lines 82-107), the stringified
opaque layout (line 109), and the entries the cleanup and storage-info
click handlers append directly (lines 225-228 and 251-263). -/
inductive DashEntry where
  | message (timestamp : Option Json) (source : String) (status : String)
      (rest : List (String × Json))
  | plain (value : Json)
  | system (text : String)
  | storage (text : String)

/-- JavaScript object spread `{...v}` as a key/value list: objects keep
their fields, strings and arrays enumerate into index keys, primitives
spread to nothing. -/
def jsSpread : Json → List (String × Json)
  | .obj fields => fields
  | .str s => s.toList.enum.map (fun p => (toString p.1, Json.str (String.singleton p.2)))
  | .arr elems => elems.enum.map (fun p => (toString p.1, p.2))
  | _ => []

/-- The entry construction inside the log/storage view's `addLogEntry`
(`dashboard.js` lines 76-110). The first read `data.type` throws when the
decoded frame is `null`. A `message`-type event reads `data.data.source`:
when `data.data` is absent or `null` that property access throws, which
this model returns as `.error`. The spread copy of `data.data` is shown
with `source` and `status` removed; any other event becomes one opaque
stringified entry. -/
def dashBuildEntry (data : Json) : Except Unit DashEntry :=
  match data.getFieldOrThrow "type" with
  | .error e => .error e
  | .ok ty =>
    if jsIsStr ty "message" then
      match data.getField "data" with
      | none => .error ()
      | some Json.null => .error ()
      | some dd =>
          .ok (DashEntry.message (data.getField "timestamp")
            (jsOrDisplay (dd.getField "source") "unknown")
            (jsOrDisplay (dd.getField "status") "")
            ((jsSpread dd).filter
              (fun kv => !(kv.1 == "source") && !(kv.1 == "status"))))
    else
      .ok (DashEntry.plain data)

/-- The log/storage view's `addLogEntry` on the console as a whole
(`dashboard.js` lines 72-123): the opening read `data.type` throws for a
`null` frame; `stats` events return early and are never logged; otherwise
the entry is built, appended, and the console trimmed from the oldest end
while more than 500 entries remain. -/
def dashAddLogEntry (log : List DashEntry) (data : Json) :
    Except Unit (List DashEntry) :=
  match data.getFieldOrThrow "type" with
  | .error e => .error e
  | .ok ty =>
    if jsIsStr ty "stats" then .ok log
    else
      match dashBuildEntry data with
      | .error e => .error e
      | .ok entry => .ok (evictOldest 500 (log ++ [entry]))

/-- The log/storage view's module-level mutable state. -/
structure DashState where
  log : List DashEntry
  connStatus : ConnectionStatus
  lastStats : Option Json
  diagnostics : List String

/-- The page-load state of the log/storage view. -/
def dashInit : DashState :=
  { log := [], connStatus := .connecting, lastStats := none, diagnostics := [] }

/-- The entries one stream frame contributes to the log/storage console:
none for an undecodable frame, a frame whose append throws, or a `stats`
event; exactly the built entry otherwise. Mirrors the branch structure of
`dashAddLogEntry`. -/
def dashFrameEntry : Option Json → List DashEntry
  | none => []
  | some data =>
      match data.getFieldOrThrow "type" with
      | .error _ => []
      | .ok ty =>
          if jsIsStr ty "stats" then []
          else
            match dashBuildEntry data with
            | .error _ => []
            | .ok entry => [entry]

/-- `updateStats(stats)` (`dashboard.js` lines 126-155): a falsy or absent
argument returns immediately, a truthy one becomes the displayed stats. -/
def dashUpdateStats (st : DashState) (stats : Option Json) : DashState :=
  match stats with
  | some s => if s.truthy then { st with lastStats := some s } else st
  | none => st

/-- The log/storage view's `onmessage` handler (`dashboard.js` lines
42-58): a frame that fails `JSON.parse`, or an append that throws, is
caught and produces two `console.error` records; a logged frame of type
`stats` additionally updates the stats display. -/
def dashHandleFrame (st : DashState) (frame : Option Json) : DashState :=
  match frame with
  | none => { st with diagnostics :=
      st.diagnostics ++ ["Error parsing event data:", "Raw event data:"] }
  | some data =>
      match dashAddLogEntry st.log data with
      | .error _ => { st with diagnostics :=
          st.diagnostics ++ ["Error parsing event data:", "Raw event data:"] }
      | .ok log1 =>
          let st1 := { st with log := log1 }
          if jsIsStr (data.getField "type") "stats" then
            dashUpdateStats st1 (data.getField "stats")
          else st1

/-- The cleanup-result append inside the `cleanup-logs` click handler
(`dashboard.js` lines 225-228): the entry is appended directly to the
console with no trim loop. -/
def cleanupAppendEntry (log : List DashEntry) (message : String) :
    List DashEntry :=
  log ++ [DashEntry.system message]

/-- The storage-info append inside the `view-storage` click handler
(`dashboard.js` lines 251-263): also appended directly with no trim loop. -/
def storageAppendEntry (log : List DashEntry) (text : String) :
    List DashEntry :=
  log ++ [DashEntry.storage text]

/-- The DOM slot contents given by the page markup (`part_000`) before any
render function has run. -/
def initialDom : Dom :=
  { lightText := "Unknown", lightClass := "status-value", lightIcon := "💡"
    doorText := "Unknown", doorClass := "status-value", doorIcon := "🚪"
    presenceText := "Unknown", presenceClass := "status-value", presenceIcon := "👤"
    luminosityValueText := "Unknown", luminosityIcon := "☀️"
    overrideText := "", overrideClass := "", overrideIcon := ""
    overrideButtonText := ""
    usersList := [("", "No users detected")]
    arduinoText := "Disconnected", arduinoClass := "stat-value" }

/-- The room-control view's state at page load. -/
def roomInit : RoomClient :=
  { systemState := initialSystemState
    users := []
    dom := initialDom
    log := []
    connStatus := .connecting
    lastUpdateText := "Never"
    diagnostics := [] }

/- ------------------------------------------------------------------ -/
/- Helper lemmas                                                      -/
/- ------------------------------------------------------------------ -/

/-- The trim loop keeps the newest entries: it is exactly a drop of the
oldest `length - cap` entries. -/
theorem evictOldest_eq_drop (cap : Nat) (l : List α) :
    evictOldest cap l = l.drop (l.length - cap) := by
  rw [evictOldest]
  by_cases h : l.length > cap
  · rw [if_pos h, evictOldest_eq_drop cap l.tail]
    cases l with
    | nil => simp at h
    | cons a as =>
        simp only [List.length_cons] at h
        simp only [List.tail_cons, List.length_cons]
        have hlen : as.length + 1 - cap = (as.length - cap) + 1 := by omega
        rw [hlen]
        rfl
  · rw [if_neg h]
    have hz : l.length - cap = 0 := by omega
    simp [hz]
termination_by l.length
decreasing_by
  cases l with
  | nil => simp at h
  | cons a as => simp

/-- Length of the trimmed log. -/
theorem evictOldest_length (cap : Nat) (l : List α) :
    (evictOldest cap l).length = min l.length cap := by
  rw [evictOldest_eq_drop, List.length_drop]
  omega

/-- Trimming removes only oldest entries: the result is a suffix. -/
theorem evictOldest_suffix (cap : Nat) (l : List α) :
    evictOldest cap l <:+ l := by
  rw [evictOldest_eq_drop]
  exact List.drop_suffix _ _

/-- Appending on the right preserves the suffix relation. -/
theorem isSuffix_append_right {l t : List α} (h : l <:+ t) (x : List α) :
    l ++ x <:+ t ++ x := by
  obtain ⟨u, hu⟩ := h
  exact ⟨u, by rw [← List.append_assoc, hu]⟩

/-- Folding `mergePatch` acts fieldwise: a field whose patch projection is
`g` ends at the last value any patch set, or stays at its start value. -/
theorem foldl_mergePatch_getD {α : Type} (get : SystemState → α)
    (g : StatePatch → Option α)
    (hfield : ∀ s p, get (mergePatch s p) = (g p).getD (get s)) :
    ∀ (ps : List StatePatch) (s0 : SystemState),
      get (ps.foldl mergePatch s0) = (lastSet g ps).getD (get s0) := by
  intro ps
  induction ps with
  | nil => intro s0; simp [lastSet]
  | cons p ps ih =>
      intro s0
      rw [List.foldl_cons, ih, lastSet, hfield]
      cases h : lastSet g ps <;> simp [Option.orElse, h]

/- ------------------------------------------------------------------ -/
/- Claim theorems                                                     -/
/- ------------------------------------------------------------------ -/

/-- C1: merging any sequence of `system_state` payloads in arrival order
into the default `systemState` is shallow per-field last-write-wins: every
field equals the value carried by the last patch that set it, and a field
no patch ever set keeps its default value (the `getD` of the fold over
`Object.assign` collapses to the `getD` of the last set value). -/
theorem claim_C1_last_write_wins (ps : List StatePatch) :
    (ps.foldl mergePatch initialSystemState).door_state
      = (lastSet (fun p => p.door_state) ps).getD initialSystemState.door_state
  ∧ (ps.foldl mergePatch initialSystemState).light_state
      = (lastSet (fun p => p.light_state) ps).getD initialSystemState.light_state
  ∧ (ps.foldl mergePatch initialSystemState).user_present
      = (lastSet (fun p => p.user_present) ps).getD initialSystemState.user_present
  ∧ (ps.foldl mergePatch initialSystemState).luminosity
      = (lastSet (fun p => p.luminosity) ps).getD initialSystemState.luminosity
  ∧ (ps.foldl mergePatch initialSystemState).last_update
      = (lastSet (fun p => p.last_update) ps).getD initialSystemState.last_update
  ∧ (ps.foldl mergePatch initialSystemState).detected_user
      = (lastSet (fun p => p.detected_user) ps).getD initialSystemState.detected_user
  ∧ (ps.foldl mergePatch initialSystemState).users_in_room
      = (lastSet (fun p => p.users_in_room) ps).getD initialSystemState.users_in_room
  ∧ (ps.foldl mergePatch initialSystemState).arduino_connected
      = (lastSet (fun p => p.arduino_connected) ps).getD initialSystemState.arduino_connected
  ∧ (ps.foldl mergePatch initialSystemState).manual_override
      = (lastSet (fun p => p.manual_override) ps).getD initialSystemState.manual_override := by
  refine ⟨?_, ?_, ?_, ?_, ?_, ?_, ?_, ?_, ?_⟩ <;>
    exact foldl_mergePatch_getD _ _ (fun s p => rfl) ps initialSystemState

/-- C6: the luminosity icon rule of `updateLuminosityStatus`: above 700 the
bright glyph, above 300 up to 700 the partial glyph, at or below 300 the
dark glyph; in particular 701 is bright, 700 and 301 partial, 300 dark. -/
theorem claim_C6_luminosity_thresholds :
    (∀ (s : SystemState) (d : Dom),
      (700 < s.luminosity →
        (updateLuminosityStatus s d).luminosityIcon = "☀️") ∧
      (300 < s.luminosity ∧ s.luminosity ≤ 700 →
        (updateLuminosityStatus s d).luminosityIcon = "🌤️") ∧
      (s.luminosity ≤ 300 →
        (updateLuminosityStatus s d).luminosityIcon = "🌑")) ∧
    (∀ d : Dom,
      (updateLuminosityStatus { initialSystemState with luminosity := 701 } d).luminosityIcon = "☀️" ∧
      (updateLuminosityStatus { initialSystemState with luminosity := 700 } d).luminosityIcon = "🌤️" ∧
      (updateLuminosityStatus { initialSystemState with luminosity := 301 } d).luminosityIcon = "🌤️" ∧
      (updateLuminosityStatus { initialSystemState with luminosity := 300 } d).luminosityIcon = "🌑") := by
  constructor
  · intro s d
    refine ⟨?_, ?_, ?_⟩ <;> intro h <;>
      · simp only [updateLuminosityStatus]
        split_ifs <;> first | rfl | omega
  · intro d
    refine ⟨?_, ?_, ?_, ?_⟩ <;> rfl

/-- Witness for C6 at concrete inputs, discharging each threshold
hypothesis. -/
theorem claim_C6_witness :
    (updateLuminosityStatus { initialSystemState with luminosity := 800 } initialDom).luminosityIcon = "☀️" ∧
    (updateLuminosityStatus { initialSystemState with luminosity := 500 } initialDom).luminosityIcon = "🌤️" ∧
    (updateLuminosityStatus { initialSystemState with luminosity := 100 } initialDom).luminosityIcon = "🌑" :=
  ⟨(claim_C6_luminosity_thresholds.1 _ initialDom).1 (by decide), (claim_C6_luminosity_thresholds.1 _ initialDom).2.1 (by decide), (claim_C6_luminosity_thresholds.1 _ initialDom).2.2 (by decide)⟩

set_option maxRecDepth 8000 in
/-- C8: rendering is a pure, deterministic, idempotent projection of
`systemState` (and the user directory): the render pass writes every slot
it owns from the state alone, so its output does not depend on the previous
DOM contents, and re-rendering an identical state reproduces the identical
labels, classes, icons and users list. -/
theorem claim_C8_render_pure_idempotent (users : UserDirectory)
    (s : SystemState) (d d' : Dom) :
    renderAll users s d = renderAll users s d' ∧
    renderAll users s (renderAll users s d) = renderAll users s d := by
  have key : ∀ e e' : Dom, renderAll users s e = renderAll users s e' := by
    intro e e'
    obtain ⟨ds, ls, up, lum, lu, du, uir, ac, mo⟩ := s
    by_cases h7 : (700:Int) < lum <;> by_cases h3 : (300:Int) < lum <;>
      cases uir <;> cases ds <;> cases ls <;> cases up <;> cases ac <;>
      cases mo <;>
      simp [renderAll, updateLightStatus, updateDoorStatus,
        updatePresenceStatus, updateLuminosityStatus, updateOverrideStatus,
        updateUsersInRoom, updateArduinoStatus, h7, h3]
  exact ⟨key d d', key _ d⟩

/-- C10: clicking the override toggle always requests the negation of the
current `manual_override` flag, and the click itself leaves the local state
untouched until the response arrives. -/
theorem claim_C10_toggle_requests_negation (st : RoomClient) :
    (toggleOverrideClick st).1.enable = !st.systemState.manual_override ∧
    (toggleOverrideClick st).2 = st :=
  ⟨rfl, rfl⟩

/-- The room view's event dispatch neither reads nor writes the
diagnostics channel. -/
theorem processEvent_diagnostics (now : String) (st : RoomClient)
    (D : List String) (e : EventMsg) :
    processEvent now { st with diagnostics := D } e =
      { processEvent now st e with diagnostics := D } := by
  obtain ⟨ty, ts, ss, da, un, en⟩ := e
  unfold processEvent updateSystemState
  cases ss <;> split_ifs <;> rfl

/-- The log/storage view's frame handler reads nothing from the
diagnostics channel: log, connection status and stats display after a
decoded frame do not depend on it. -/
theorem dashHandleFrame_diagnostics (st : DashState) (D : List String)
    (j : Json) :
    (dashHandleFrame { st with diagnostics := D } (some j)).log
        = (dashHandleFrame st (some j)).log ∧
    (dashHandleFrame { st with diagnostics := D } (some j)).connStatus
        = (dashHandleFrame st (some j)).connStatus ∧
    (dashHandleFrame { st with diagnostics := D } (some j)).lastStats
        = (dashHandleFrame st (some j)).lastStats := by
  cases h : dashAddLogEntry st.log j with
  | error err => simp [dashHandleFrame, h]
  | ok log1 =>
      simp only [dashHandleFrame, h]
      split_ifs
      · cases hs : j.getField "stats" with
        | none => simp [dashUpdateStats]
        | some sj =>
            simp only [dashUpdateStats]
            split_ifs <;> simp
      · simp

/-- C3: a frame that is not valid JSON is caught and discarded in both
views: the system state, the log, and the connection indicator are left
unchanged, only `console.error` diagnostics are produced, and the handler
processes the next decoded frame exactly as it would have without the bad
frame. -/
theorem claim_C3_malformed_frame_discarded (now now2 : String)
    (st : RoomClient) (e : EventMsg) (dst : DashState) (j : Json) :
    handleMessage now st none =
      { st with diagnostics := st.diagnostics ++ ["Error parsing event data:"] } ∧
    (handleMessage now2 (handleMessage now st none) (some e)).systemState
      = (handleMessage now2 st (some e)).systemState ∧
    (handleMessage now2 (handleMessage now st none) (some e)).log
      = (handleMessage now2 st (some e)).log ∧
    (handleMessage now2 (handleMessage now st none) (some e)).connStatus
      = (handleMessage now2 st (some e)).connStatus ∧
    dashHandleFrame dst none =
      { dst with diagnostics :=
          dst.diagnostics ++ ["Error parsing event data:", "Raw event data:"] } ∧
    (dashHandleFrame (dashHandleFrame dst none) (some j)).log
      = (dashHandleFrame dst (some j)).log ∧
    (dashHandleFrame (dashHandleFrame dst none) (some j)).connStatus
      = (dashHandleFrame dst (some j)).connStatus ∧
    (dashHandleFrame (dashHandleFrame dst none) (some j)).lastStats
      = (dashHandleFrame dst (some j)).lastStats := by
  refine ⟨rfl, ?_, ?_, ?_, rfl, ?_, ?_, ?_⟩
  · show (handleMessage now2 { st with diagnostics := _ } (some e)).systemState = _
    simp [handleMessage, processEvent_diagnostics]
  · show (handleMessage now2 { st with diagnostics := _ } (some e)).log = _
    simp [handleMessage, processEvent_diagnostics]
  · show (handleMessage now2 { st with diagnostics := _ } (some e)).connStatus = _
    simp [handleMessage, processEvent_diagnostics]
  · exact (dashHandleFrame_diagnostics dst _ j).1
  · exact (dashHandleFrame_diagnostics dst _ j).2.1
  · exact (dashHandleFrame_diagnostics dst _ j).2.2

/-- C5: every stream transport error immediately sets the indicator to
disconnected and schedules exactly one reconnect callback at exactly 5000
milliseconds after the error; with no other timer pending, no reconnect can
fire earlier and firing the one timer consumes it while running
`connectToEventSource` once; the scheduled delay is the same constant in
every connector state (no backoff growth, no retry cap), and an error
always schedules a retry. -/
theorem claim_C5_reconnect_policy (c c2 : ConnectorState) (now t : Nat) :
    (onError c now).status = ConnectionStatus.disconnected ∧
    (onError c now).pendingReconnects = c.pendingReconnects ++ [now + 5000] ∧
    (c.pendingReconnects = [] → canFireAt (onError c now) t →
      now + 5000 ≤ t) ∧
    (c.pendingReconnects = [] →
      (fireReconnect (onError c now)).pendingReconnects = [] ∧
      (fireReconnect (onError c now)).generation = c.generation + 1) ∧
    (onError c now).pendingReconnects.getLast?
      = (onError c2 now).pendingReconnects.getLast? ∧
    (onError c now).pendingReconnects ≠ [] := by
  refine ⟨rfl, rfl, ?_, ?_, ?_, ?_⟩
  · intro hemp hfire
    obtain ⟨d, hd, hdt⟩ := hfire
    simp [onError, hemp, reconnectDelayMs] at hd
    omega
  · intro hemp
    exact ⟨by simp [onError, fireReconnect, hemp], rfl⟩
  · simp [onError, List.getLast?_append]
  · simp [onError]

/-- Witness for C5 at a concrete connector state with no pending timer and
an error at time 100: the reconnect cannot fire before 5100, and firing it
leaves no timer pending. -/
theorem claim_C5_witness :
    (100 : Nat) + 5000 ≤ 5100 ∧
    (fireReconnect (onError ⟨ConnectionStatus.connected, [], 0⟩ 100)).pendingReconnects = [] := by
  have h := claim_C5_reconnect_policy ⟨ConnectionStatus.connected, [], 0⟩
    ⟨ConnectionStatus.connecting, [3], 7⟩ 100 5100
  refine ⟨h.2.2.1 rfl ?_, (h.2.2.2.1 rfl).1⟩
  exact ⟨5100, by simp [onError, reconnectDelayMs], by omega⟩

/-- Repeated `addLogEntry` keeps the room log at or below its capacity. -/
theorem foldl_addLogEntry_length (now : String) :
    ∀ (datas : List RoomLogData) (log : List RoomLogEntry),
      log.length ≤ 100 →
      (datas.foldl (addLogEntry now) log).length ≤ 100 := by
  intro datas
  induction datas with
  | nil => intro log h; simpa using h
  | cons d ds ih =>
      intro log h
      rw [List.foldl_cons]
      apply ih
      rw [addLogEntry, evictOldest_length]
      omega

/-- Repeated `addLogEntry` evicts only from the oldest end: what remains is
a suffix of everything that was appended. -/
theorem foldl_addLogEntry_suffix (now : String) :
    ∀ (datas : List RoomLogData) (log : List RoomLogEntry),
      datas.foldl (addLogEntry now) log <:+
        log ++ datas.map (renderRoomLogEntry now) := by
  intro datas
  induction datas with
  | nil => intro log; simp
  | cons d ds ih =>
      intro log
      rw [List.foldl_cons, List.map_cons]
      refine (ih (addLogEntry now log d)).trans ?_
      have h2 : addLogEntry now log d <:+ log ++ [renderRoomLogEntry now d] :=
        evictOldest_suffix _ _
      have h3 := isSuffix_append_right h2 (ds.map (renderRoomLogEntry now))
      rw [List.append_assoc] at h3
      simpa using h3

/-- A successful `dashAddLogEntry` cannot grow the console beyond 500. -/
theorem dashAddLogEntry_ok_length (log : List DashEntry) (j : Json)
    (log1 : List DashEntry) (h : dashAddLogEntry log j = .ok log1)
    (hle : log.length ≤ 500) : log1.length ≤ 500 := by
  unfold dashAddLogEntry at h
  split at h
  · simp at h
  · split at h
    · injection h with h
      subst h
      exact hle
    · cases hb : dashBuildEntry j with
      | error e => rw [hb] at h; simp at h
      | ok entry =>
          rw [hb] at h
          injection h with h
          subst h
          rw [evictOldest_length]
          omega

/-- One handled frame never grows the log/storage console beyond 500. -/
theorem dashHandleFrame_log_le (st : DashState) (f : Option Json)
    (h : st.log.length ≤ 500) :
    (dashHandleFrame st f).log.length ≤ 500 := by
  cases f with
  | none => simpa [dashHandleFrame] using h
  | some j =>
      cases hh : dashAddLogEntry st.log j with
      | error e => simpa [dashHandleFrame, hh] using h
      | ok log1 =>
          have hlen := dashAddLogEntry_ok_length st.log j log1 hh h
          simp only [dashHandleFrame, hh]
          split_ifs
          · cases hs : j.getField "stats" with
            | none => simpa [dashUpdateStats] using hlen
            | some sj =>
                simp only [dashUpdateStats]
                split_ifs <;> simpa using hlen
          · simpa using hlen

/-- Any sequence of handled frames keeps the console at or below 500. -/
theorem dash_foldl_length :
    ∀ (frames : List (Option Json)) (st : DashState),
      st.log.length ≤ 500 →
      (frames.foldl dashHandleFrame st).log.length ≤ 500 := by
  intro frames
  induction frames with
  | nil => intro st h; simpa using h
  | cons f fs ih =>
      intro st h
      rw [List.foldl_cons]
      exact ih _ (dashHandleFrame_log_le st f h)

/-- A frame carrying a bare JSON string appends exactly one opaque entry
in the log/storage view. -/
theorem dashHandleFrame_str_log (st : DashState) (s : String) :
    (dashHandleFrame st (some (Json.str s))).log
      = evictOldest 500 (st.log ++ [DashEntry.plain (Json.str s)]) := rfl

/-- Exact console length after `n` bare-string frames. -/
theorem dash_foldl_str_length (s : String) :
    ∀ (n : Nat) (st : DashState), st.log.length ≤ 500 →
      ((List.replicate n (some (Json.str s))).foldl dashHandleFrame st).log.length
        = min (st.log.length + n) 500 := by
  intro n
  induction n with
  | zero =>
      intro st h
      simp only [List.replicate, List.foldl_nil]
      omega
  | succ n ih =>
      intro st h
      rw [List.replicate_succ, List.foldl_cons]
      have h1 : (dashHandleFrame st (some (Json.str s))).log.length
          = min (st.log.length + 1) 500 := by
        rw [dashHandleFrame_str_log, evictOldest_length, List.length_append]
        simp
      rw [ih _ (by rw [h1]; omega), h1]
      omega

/-- A field read that returned a value means the receiver is an object,
on which no property read throws. -/
theorem getFieldOrThrow_of_getField_some {j : Json} {k : String} {v : Json}
    (h : j.getField k = some v) (k2 : String) :
    j.getFieldOrThrow k2 = .ok (j.getField k2) := by
  cases j with
  | null => simp [Json.getField] at h
  | bool b => simp [Json.getField] at h
  | num n => simp [Json.getField] at h
  | str s2 => simp [Json.getField] at h
  | arr xs => simp [Json.getField] at h
  | obj fields => rfl

/-- On a non-null receiver a property read does not throw. -/
theorem getFieldOrThrow_of_ne_null {j : Json} (h : j ≠ Json.null)
    (k : String) : j.getFieldOrThrow k = .ok (j.getField k) := by
  cases j <;> first
    | exact absurd rfl h
    | rfl

/-- The console after one decoded frame: the appended log on success, the
untouched log when the append throws; the stats display update never
touches the log. -/
theorem dashHandleFrame_log_eq (st : DashState) (data : Json) :
    (dashHandleFrame st (some data)).log =
      match dashAddLogEntry st.log data with
      | .error _ => st.log
      | .ok log1 => log1 := by
  cases h : dashAddLogEntry st.log data with
  | error e => simp [dashHandleFrame, h]
  | ok log1 =>
      simp only [dashHandleFrame, h]
      split_ifs
      · cases hs : data.getField "stats" with
        | none => simp [dashUpdateStats]
        | some sj =>
            simp only [dashUpdateStats]
            split_ifs <;> rfl
      · rfl

/-- One handled frame appends that frame's entries at the newest end and
evicts only from the oldest end. -/
theorem dashHandleFrame_log_suffix (st : DashState) (f : Option Json) :
    (dashHandleFrame st f).log <:+ st.log ++ dashFrameEntry f := by
  cases f with
  | none => simp [dashHandleFrame, dashFrameEntry]
  | some data =>
      rw [dashHandleFrame_log_eq]
      cases hga : data.getFieldOrThrow "type" with
      | error e => simp [dashAddLogEntry, dashFrameEntry, hga]
      | ok ty =>
          by_cases hst : jsIsStr ty "stats" = true
          · simp [dashAddLogEntry, dashFrameEntry, hga, hst]
          · cases hb : dashBuildEntry data with
            | error e =>
                simp [dashAddLogEntry, dashFrameEntry, hga, hst, hb]
            | ok entry =>
                simp only [dashAddLogEntry, dashFrameEntry, hga, hst,
                  Bool.false_eq_true, if_false, hb]
                exact evictOldest_suffix _ _

/-- FIFO for the log/storage console: after any frame sequence what
remains is a suffix of the entries those frames appended, in order. -/
theorem dash_foldl_suffix :
    ∀ (frames : List (Option Json)) (st : DashState),
      (frames.foldl dashHandleFrame st).log <:+
        st.log ++ (frames.map dashFrameEntry).flatten := by
  intro frames
  induction frames with
  | nil => intro st; simp
  | cons f fs ih =>
      intro st
      rw [List.foldl_cons, List.map_cons, List.flatten_cons]
      refine (ih (dashHandleFrame st f)).trans ?_
      have h2 := isSuffix_append_right (dashHandleFrame_log_suffix st f)
        ((fs.map dashFrameEntry).flatten)
      rw [List.append_assoc] at h2
      exact h2

/-- C2 counterexample: the capacity bound does not hold on every append
path. After 500 decoded stream frames the log/storage console holds exactly
its 500-entry capacity, and the cleanup click handler then appends its
result entry directly, with no trim loop, leaving 501 entries. -/
theorem claim_C2_counterexample :
    500 < (cleanupAppendEntry
        (((List.replicate 500 (some (Json.str "x"))).foldl
            dashHandleFrame dashInit).log)
        "Cleaned up 2 files, freed 1.00 MB (forced cleanup)").length := by
  have h := dash_foldl_str_length "x" 500 dashInit (by simp [dashInit])
  have h0 : dashInit.log.length = 0 := rfl
  rw [h0] at h
  simp only [cleanupAppendEntry, List.length_append, List.length_singleton]
  rw [h]
  omega

/-- C2 (amended): every append that goes through an `addLogEntry` keeps
the capacity with FIFO eviction — after any number of appends the room log
holds at most 100 entries and the log/storage console at most 500, and in
both views what remains is a suffix of the entries appended, in order
(oldest evicted first) — but the cleanup and storage-info click handlers
of the log/storage view append directly without the trim loop, each
growing the console by exactly one entry whatever its size. -/
theorem claim_C2_amended_log_bounds (now : String)
    (datas : List RoomLogData) (frames : List (Option Json))
    (dlog : List DashEntry) (m m2 : String) :
    (datas.foldl (addLogEntry now) []).length ≤ 100 ∧
    (datas.foldl (addLogEntry now) []) <:+ datas.map (renderRoomLogEntry now) ∧
    (frames.foldl dashHandleFrame dashInit).log.length ≤ 500 ∧
    (frames.foldl dashHandleFrame dashInit).log <:+
      (frames.map dashFrameEntry).flatten ∧
    cleanupAppendEntry dlog m = dlog ++ [DashEntry.system m] ∧
    (cleanupAppendEntry dlog m).length = dlog.length + 1 ∧
    (storageAppendEntry dlog m2).length = dlog.length + 1 := by
  refine ⟨foldl_addLogEntry_length now datas [] (by simp), ?_, dash_foldl_length frames dashInit (by simp [dashInit]), ?_, rfl, ?_, ?_⟩
  · simpa using foldl_addLogEntry_suffix now datas []
  · simpa using dash_foldl_suffix frames dashInit
  · simp [cleanupAppendEntry]
  · simp [storageAppendEntry]

/-- C4: for both control operations, a response whose status is not
`success`, or a transport error, appends exactly one error entry carrying
the server-provided or transport message and leaves everything else —
in particular the room state — unchanged; a success response logs exactly
one control entry and merges the returned state when one is present. -/
theorem claim_C4_control_response_handling (now command : String)
    (st : RoomClient) (data : ControlResponse) (m : String) (p : StatePatch)
    (newState : Bool) :
    (data.status ≠ some "success" →
      controlLightResponse now command st (.ok data) =
        { st with log := addLogEntry now st.log ⟨some "error", none, some ("Failed to turn " ++ command ++ " light: " ++ templateStr data.message), none, none⟩ }) ∧
    (controlLightResponse now command st (.networkError m) =
      { st with log := addLogEntry now st.log ⟨some "error", none, some ("Error controlling light: " ++ m), none, none⟩ }) ∧
    (data.status = some "success" → data.state = none →
      controlLightResponse now command st (.ok data) =
        { st with log := addLogEntry now st.log ⟨some "control", none, some ("Light turned " ++ command ++ " successfully"), none, none⟩ }) ∧
    (data.status = some "success" → data.state = some p →
      (controlLightResponse now command st (.ok data)).systemState
          = mergePatch st.systemState p ∧
      (controlLightResponse now command st (.ok data)).log
          = addLogEntry now st.log ⟨some "control", none, some ("Light turned " ++ command ++ " successfully"), none, none⟩) ∧
    (data.status ≠ some "success" →
      toggleOverrideResponse now newState st (.ok data) =
        { st with log := addLogEntry now st.log ⟨some "error", none, some ("Failed to toggle override: " ++ templateStr data.message), none, none⟩ }) ∧
    (toggleOverrideResponse now newState st (.networkError m) =
      { st with log := addLogEntry now st.log ⟨some "error", none, some ("Error toggling override: " ++ m), none, none⟩ }) ∧
    (data.status = some "success" → data.state = none →
      toggleOverrideResponse now newState st (.ok data) =
        { st with log := addLogEntry now st.log ⟨some "control", none, some ("Manual override " ++ (if newState then "enabled" else "disabled")), none, none⟩ }) ∧
    (data.status = some "success" → data.state = some p →
      (toggleOverrideResponse now newState st (.ok data)).systemState
          = mergePatch st.systemState p ∧
      (toggleOverrideResponse now newState st (.ok data)).log
          = addLogEntry now st.log ⟨some "control", none, some ("Manual override " ++ (if newState then "enabled" else "disabled")), none, none⟩) := by
  refine ⟨?_, rfl, ?_, ?_, ?_, rfl, ?_, ?_⟩
  · intro h
    simp [controlLightResponse, h]
  · intro h1 h2
    simp [controlLightResponse, h1, h2]
  · intro h1 h2
    constructor <;> simp [controlLightResponse, updateSystemState, h1, h2]
  · intro h
    simp [toggleOverrideResponse, h]
  · intro h1 h2
    simp [toggleOverrideResponse, h1, h2]
  · intro h1 h2
    constructor <;> simp [toggleOverrideResponse, updateSystemState, h1, h2]

/-- Witness for C4 at concrete inputs: a failed response, a bare success,
and a success carrying a state patch, for both operations. -/
theorem claim_C4_witness :
    (controlLightResponse "t0" "on" roomInit
        (.ok ⟨some "error", some "boom", none⟩) =
      { roomInit with log := addLogEntry "t0" roomInit.log ⟨some "error", none, some ("Failed to turn " ++ "on" ++ " light: " ++ templateStr (some "boom")), none, none⟩ }) ∧
    (controlLightResponse "t0" "on" roomInit
        (.ok ⟨some "success", none, none⟩) =
      { roomInit with log := addLogEntry "t0" roomInit.log ⟨some "control", none, some ("Light turned " ++ "on" ++ " successfully"), none, none⟩ }) ∧
    ((controlLightResponse "t0" "on" roomInit
        (.ok ⟨some "success", none, some { light_state := some true }⟩)).systemState
      = mergePatch roomInit.systemState { light_state := some true }) ∧
    (toggleOverrideResponse "t0" true roomInit
        (.ok ⟨some "error", some "boom", none⟩) =
      { roomInit with log := addLogEntry "t0" roomInit.log ⟨some "error", none, some ("Failed to toggle override: " ++ templateStr (some "boom")), none, none⟩ }) ∧
    (toggleOverrideResponse "t0" true roomInit
        (.ok ⟨some "success", none, none⟩) =
      { roomInit with log := addLogEntry "t0" roomInit.log ⟨some "control", none, some ("Manual override " ++ (if true then "enabled" else "disabled")), none, none⟩ }) ∧
    ((toggleOverrideResponse "t0" true roomInit
        (.ok ⟨some "success", none, some { light_state := some true }⟩)).systemState
      = mergePatch roomInit.systemState { light_state := some true }) := by
  have h1 := claim_C4_control_response_handling "t0" "on" roomInit
    ⟨some "error", some "boom", none⟩ "m" {} true
  have h2 := claim_C4_control_response_handling "t0" "on" roomInit
    ⟨some "success", none, none⟩ "m" {} true
  have h3 := claim_C4_control_response_handling "t0" "on" roomInit
    ⟨some "success", none, some { light_state := some true }⟩ "m"
    { light_state := some true } true
  exact ⟨h1.1 (by decide), h2.2.2.1 rfl rfl, (h3.2.2.2.1 rfl rfl).1, h1.2.2.2.2.1 (by decide), h2.2.2.2.2.2.2.1 rfl rfl, (h3.2.2.2.2.2.2.2 rfl rfl).1⟩

/-- The string comparison test holds exactly for that string value. -/
theorem jsIsStr_eq_true {v : Option Json} {lit : String} :
    jsIsStr v lit = true ↔ v = some (Json.str lit) := by
  cases v with
  | none => simp [jsIsStr]
  | some j => cases j <;> simp [jsIsStr]

/-- C7 counterexample: a successfully decoded `initial_state` event — whose
type is not `stats` — appends no log entry at all in the room-control view:
the log stays empty instead of gaining exactly one entry. -/
theorem claim_C7_counterexample :
    roomInit.log = [] ∧
    (handleMessage "t0" roomInit
        (some { type := some "initial_state",
                system_state := some { light_state := some true } })).log = [] := by
  constructor
  · rfl
  · simp [handleMessage, processEvent, updateSystemState, roomInit]

/-- C7 (amended): the room view logs exactly one entry per `update`,
`welcome` and `override` event and none for `initial_state` or
unrecognized types; the log/storage view logs exactly one entry per decoded
event unless the type is `stats` (never logged) or the event is a
message-type object without a usable `data` object, in which case the
append throws (caught by the handler) and nothing is logged; a decoded
bare `null` frame likewise throws at the first property read and logs
nothing. -/
theorem claim_C7_append_per_event (now : String) (st : RoomClient)
    (e : EventMsg) (dlog : List DashEntry) (j : Json)
    (fs : List (String × Json)) :
    (e.type = some "update" →
      (processEvent now st e).log = addLogEntry now st.log ⟨some "update", e.timestamp, some "System state updated", none, e.data⟩) ∧
    (e.type = some "welcome" →
      (processEvent now st e).log = addLogEntry now st.log ⟨some "welcome", e.timestamp, some ("Welcome " ++ templateStr e.user_name ++ "!"), e.user_name, none⟩) ∧
    (e.type = some "override" →
      (processEvent now st e).log = addLogEntry now st.log ⟨some "control", e.timestamp, some ("Manual override " ++ (if e.enabled.getD false then "enabled" else "disabled")), none, some (Json.obj [("enabled", Json.bool (e.enabled.getD false))])⟩) ∧
    (e.type = some "initial_state" → (processEvent now st e).log = st.log) ∧
    (e.type ≠ some "initial_state" → e.type ≠ some "update" →
      e.type ≠ some "welcome" → e.type ≠ some "override" →
      processEvent now st e = st) ∧
    (jsIsStr (j.getField "type") "stats" = true →
      dashAddLogEntry dlog j = .ok dlog) ∧
    (j ≠ Json.null →
      jsIsStr (j.getField "type") "stats" = false →
      jsIsStr (j.getField "type") "message" = false →
      dashAddLogEntry dlog j
        = .ok (evictOldest 500 (dlog ++ [DashEntry.plain j]))) ∧
    (jsIsStr (j.getField "type") "message" = true →
      j.getField "data" = none → dashAddLogEntry dlog j = .error ()) ∧
    (jsIsStr (j.getField "type") "message" = true →
      j.getField "data" = some (Json.obj fs) →
      dashAddLogEntry dlog j
        = .ok (evictOldest 500 (dlog ++ [DashEntry.message (j.getField "timestamp") (jsOrDisplay ((Json.obj fs).getField "source") "unknown") (jsOrDisplay ((Json.obj fs).getField "status") "") (fs.filter (fun kv => !(kv.1 == "source") && !(kv.1 == "status")))]))) ∧
    dashAddLogEntry dlog Json.null = .error () := by
  refine ⟨?_, ?_, ?_, ?_, ?_, ?_, ?_, ?_, ?_, rfl⟩
  · intro h
    cases hss : e.system_state <;>
      simp [processEvent, h, hss, updateSystemState, addLogEntry]
  · intro h
    simp [processEvent, h]
  · intro h
    simp [processEvent, h]
  · intro h
    cases hss : e.system_state <;>
      simp [processEvent, h, hss, updateSystemState]
  · intro h1 h2 h3 h4
    simp [processEvent, h1, h2, h3, h4]
  · intro h
    rw [jsIsStr_eq_true] at h
    have hok := getFieldOrThrow_of_getField_some h "type"
    simp [dashAddLogEntry, hok, h, jsIsStr]
  · intro hnn h1 h2
    have hok := getFieldOrThrow_of_ne_null hnn "type"
    simp [dashAddLogEntry, dashBuildEntry, hok, h1, h2]
  · intro h1 h2
    rw [jsIsStr_eq_true] at h1
    have hok := getFieldOrThrow_of_getField_some h1 "type"
    simp [dashAddLogEntry, dashBuildEntry, hok, h1, h2, jsIsStr]
  · intro h1 h2
    rw [jsIsStr_eq_true] at h1
    have hok := getFieldOrThrow_of_getField_some h1 "type"
    simp [dashAddLogEntry, dashBuildEntry, hok, h1, h2, jsIsStr, jsSpread]

/-- Witness for C7 at concrete events: one per dispatch branch of the room
view, and one per logging shape of the log/storage view. -/
theorem claim_C7_witness :
    (processEvent "t0" roomInit { type := some "update" }).log
      = addLogEntry "t0" roomInit.log ⟨some "update", none, some "System state updated", none, none⟩ ∧
    (processEvent "t0" roomInit { type := some "welcome", user_name := some "Ana" }).log
      = addLogEntry "t0" roomInit.log ⟨some "welcome", none, some ("Welcome " ++ templateStr (some "Ana") ++ "!"), some "Ana", none⟩ ∧
    (processEvent "t0" roomInit { type := some "override", enabled := some true }).log
      = addLogEntry "t0" roomInit.log ⟨some "control", none, some ("Manual override " ++ (if (some true : Option Bool).getD false then "enabled" else "disabled")), none, some (Json.obj [("enabled", Json.bool ((some true : Option Bool).getD false))])⟩ ∧
    (processEvent "t0" roomInit { type := some "initial_state" }).log = roomInit.log ∧
    processEvent "t0" roomInit { type := some "unknown_kind" } = roomInit ∧
    dashAddLogEntry [] (Json.obj [("type", Json.str "stats")]) = .ok [] ∧
    dashAddLogEntry [] (Json.str "hello")
      = .ok (evictOldest 500 ([] ++ [DashEntry.plain (Json.str "hello")])) ∧
    dashAddLogEntry [] (Json.obj [("type", Json.str "message")]) = .error () ∧
    dashAddLogEntry [] (Json.obj [("type", Json.str "message"), ("data", Json.obj [("source", Json.str "arduino")])])
      = .ok (evictOldest 500 ([] ++ [DashEntry.message ((Json.obj [("type", Json.str "message"), ("data", Json.obj [("source", Json.str "arduino")])]).getField "timestamp") (jsOrDisplay ((Json.obj [("source", Json.str "arduino")]).getField "source") "unknown") (jsOrDisplay ((Json.obj [("source", Json.str "arduino")]).getField "status") "") ([("source", Json.str "arduino")].filter (fun kv => !(kv.1 == "source") && !(kv.1 == "status")))])) := by
  refine ⟨?_, ?_, ?_, ?_, ?_, ?_, ?_, ?_, ?_⟩
  · exact (claim_C7_append_per_event "t0" roomInit { type := some "update" } [] Json.null []).1 rfl
  · exact (claim_C7_append_per_event "t0" roomInit { type := some "welcome", user_name := some "Ana" } [] Json.null []).2.1 rfl
  · exact (claim_C7_append_per_event "t0" roomInit { type := some "override", enabled := some true } [] Json.null []).2.2.1 rfl
  · exact (claim_C7_append_per_event "t0" roomInit { type := some "initial_state" } [] Json.null []).2.2.2.1 rfl
  · exact (claim_C7_append_per_event "t0" roomInit { type := some "unknown_kind" } [] Json.null []).2.2.2.2.1
      (by decide) (by decide) (by decide) (by decide)
  · exact (claim_C7_append_per_event "t0" roomInit {} []
      (Json.obj [("type", Json.str "stats")]) []).2.2.2.2.2.1 rfl
  · exact (claim_C7_append_per_event "t0" roomInit {} []
      (Json.str "hello") []).2.2.2.2.2.2.1 (by simp) rfl rfl
  · exact (claim_C7_append_per_event "t0" roomInit {} []
      (Json.obj [("type", Json.str "message")]) []).2.2.2.2.2.2.2.1 rfl rfl
  · exact (claim_C7_append_per_event "t0" roomInit {} []
      (Json.obj [("type", Json.str "message"), ("data", Json.obj [("source", Json.str "arduino")])])
      [("source", Json.str "arduino")]).2.2.2.2.2.2.2.2.1 rfl rfl

/-- C9 counterexample: in the log/storage view a `message`-type event with
no `data` field makes the append operation throw (the property read
`data.data.source` fails on `undefined`), so missing optional fields can
make the log append throw; there is no local-clock fallback on this path. -/
theorem claim_C9_counterexample :
    dashAddLogEntry [] (Json.obj [("type", Json.str "message")]) = .error () :=
  rfl

/-- C9 (amended): in the room-control view an absent (or empty) timestamp
field falls back to the current locale clock time and the append is total —
it always appends exactly the rendered entry and trims; in the log/storage
view the append never consults a clock: a message-type entry records the
raw timestamp value with no fallback, a message event lacking a data
object throws, and any other non-stats event is logged whole. -/
theorem claim_C9_timestamp_fallback (now : String) (data : RoomLogData)
    (log : List RoomLogEntry) (j : Json) (fs : List (String × Json)) :
    (data.timestamp = none → (renderRoomLogEntry now data).timestamp = now) ∧
    (data.timestamp = some "" →
      (renderRoomLogEntry now data).timestamp = now) ∧
    addLogEntry now log data
      = evictOldest 100 (log ++ [renderRoomLogEntry now data]) ∧
    (jsIsStr (j.getField "type") "message" = true →
      j.getField "data" = some (Json.obj fs) →
      dashBuildEntry j = .ok (DashEntry.message (j.getField "timestamp") (jsOrDisplay ((Json.obj fs).getField "source") "unknown") (jsOrDisplay ((Json.obj fs).getField "status") "") (fs.filter (fun kv => !(kv.1 == "source") && !(kv.1 == "status"))))) ∧
    (jsIsStr (j.getField "type") "message" = true →
      j.getField "data" = none → dashBuildEntry j = .error ()) := by
  refine ⟨?_, ?_, rfl, ?_, ?_⟩
  · intro h
    simp [renderRoomLogEntry, jsOrString, h]
  · intro h
    simp [renderRoomLogEntry, jsOrString, h]
  · intro h1 h2
    rw [jsIsStr_eq_true] at h1
    have hok := getFieldOrThrow_of_getField_some h1 "type"
    simp [dashBuildEntry, hok, h1, h2, jsIsStr, jsSpread]
  · intro h1 h2
    rw [jsIsStr_eq_true] at h1
    have hok := getFieldOrThrow_of_getField_some h1 "type"
    simp [dashBuildEntry, hok, h1, h2, jsIsStr]

/-- Witness for C9: an entry with no timestamp rendered at clock time
`"10:00:00"`, and the two log/storage shapes at concrete events. -/
theorem claim_C9_witness :
    (renderRoomLogEntry "10:00:00" ⟨some "info", none, some "hi", none, none⟩).timestamp = "10:00:00" ∧
    (renderRoomLogEntry "10:00:00" ⟨some "info", some "", some "hi", none, none⟩).timestamp = "10:00:00" ∧
    dashBuildEntry (Json.obj [("type", Json.str "message"), ("data", Json.obj [("status", Json.str "ok")])])
      = .ok (DashEntry.message ((Json.obj [("type", Json.str "message"), ("data", Json.obj [("status", Json.str "ok")])]).getField "timestamp") (jsOrDisplay ((Json.obj [("status", Json.str "ok")]).getField "source") "unknown") (jsOrDisplay ((Json.obj [("status", Json.str "ok")]).getField "status") "") ([("status", Json.str "ok")].filter (fun kv => !(kv.1 == "source") && !(kv.1 == "status")))) ∧
    dashBuildEntry (Json.obj [("type", Json.str "message")]) = .error () := by
  refine ⟨?_, ?_, ?_, ?_⟩
  · exact (claim_C9_timestamp_fallback "10:00:00" ⟨some "info", none, some "hi", none, none⟩ [] Json.null []).1 rfl
  · exact (claim_C9_timestamp_fallback "10:00:00" ⟨some "info", some "", some "hi", none, none⟩ [] Json.null []).2.1 rfl
  · exact (claim_C9_timestamp_fallback "10:00:00" ⟨none, none, none, none, none⟩ []
      (Json.obj [("type", Json.str "message"), ("data", Json.obj [("status", Json.str "ok")])])
      [("status", Json.str "ok")]).2.2.2.1 rfl rfl
  · exact (claim_C9_timestamp_fallback "10:00:00" ⟨none, none, none, none, none⟩ []
      (Json.obj [("type", Json.str "message")]) []).2.2.2.2 rfl rfl

end Dashboard
